import Mathlib

/-!
Verification of the zillow_wf adaptive extraction-and-crawl pipeline.

The definitions below are shallow embeddings of functions from
`src/zillow_wf/flexible_waterfront_extractor.py` and
`src/zillow_wf/find_waterfront_footage_v4.py`.  Python dictionaries parsed
from JSON are modelled by the `JValue` tree; Python strings are handled
through their character lists so that every definition evaluates by kernel
reduction.  Each definition's doc comment names the source function it
embeds.
-/

namespace ZillowWF

/-- Model of a decoded JSON value as held in Python dictionaries
(`payload`, `cache_data`, `property_data`). `null` stands for Python `None`. -/
inductive JValue where
  | null
  | bool (b : Bool)
  | num (n : Int)
  | str (s : String)
  | arr (elems : List JValue)
  | obj (fields : List (String × JValue))

mutual

/-- Structural equality test on `JValue`; models Python's `==`/`!=` on the
decoded JSON values compared by the change detector. -/
def beqJ : JValue → JValue → Bool
  | .null, .null => true
  | .bool a, .bool b => a = b
  | .num a, .num b => a = b
  | .str a, .str b => a = b
  | .arr a, .arr b => beqJList a b
  | .obj a, .obj b => beqJObj a b
  | _, _ => false

/-- Elementwise `beqJ` on value lists. -/
def beqJList : List JValue → List JValue → Bool
  | [], [] => true
  | a :: as, b :: bs => beqJ a b && beqJList as bs
  | _, _ => false

/-- Elementwise key/value `beqJ` on object field lists. -/
def beqJObj : List (String × JValue) → List (String × JValue) → Bool
  | [], [] => true
  | (ka, va) :: as, (kb, vb) :: bs => ka = kb && beqJ va vb && beqJObj as bs
  | _, _ => false

end

/-- Word character in the sense of the regex class backslash-w over ASCII:
letters, digits and the underscore. -/
def isWordCh (c : Char) : Bool := c.isAlphanum || c = '_'

/-- Whether the first list is an initial segment of the second. -/
def charsStartWith : List Char → List Char → Bool
  | [], _ => true
  | _ :: _, [] => false
  | a :: as, b :: bs => a = b && charsStartWith as bs

/-- Whether the first list occurs contiguously inside the second
(Python's `sub in hay` on strings). -/
def charsContain (needle : List Char) : List Char → Bool
  | [] => needle.isEmpty
  | c :: rest => charsStartWith needle (c :: rest) || charsContain needle rest

/-- Python `sub in hay` for strings. -/
def strContains (hay sub : String) : Bool := charsContain sub.data hay.data

/-- Python `str.lower()` over the ASCII data handled here. -/
def lowerStr (s : String) : String := String.mk (s.data.map Char.toLower)

/-- Python `str.strip()`: remove leading and trailing whitespace. -/
def pyStrip (s : String) : String :=
  String.mk
    (((s.data.dropWhile Char.isWhitespace).reverse.dropWhile Char.isWhitespace).reverse)

/-- Helper for `splitOnChar`, accumulating the current part reversed. -/
def splitOnCharAux (sep : Char) (cur : List Char) : List Char → List String
  | [] => [String.mk cur.reverse]
  | c :: rest =>
      if c = sep then String.mk cur.reverse :: splitOnCharAux sep [] rest
      else splitOnCharAux sep (c :: cur) rest

/-- Python `str.split(sep)` for a one-character separator, keeping empty
parts. -/
def splitOnChar (sep : Char) (s : String) : List String :=
  splitOnCharAux sep [] s.data

/-- Helper for `pySplitWs`, accumulating the current run reversed. -/
def wsRunsAux (cur : List Char) : List Char → List String
  | [] => if cur.isEmpty then [] else [String.mk cur.reverse]
  | c :: rest =>
      if c.isWhitespace then
        if cur.isEmpty then wsRunsAux [] rest
        else String.mk cur.reverse :: wsRunsAux [] rest
      else wsRunsAux (c :: cur) rest

/-- Python `str.capitalize()`: first character upper-cased, the rest
lower-cased. -/
def pyCapitalize (s : String) : String :=
  match s.data with
  | [] => ""
  | c :: rest => String.mk (c.toUpper :: rest.map Char.toLower)

/-- Helper for `snakeToCamel`: capitalize every word after the first. -/
def camelJoin : List String → String
  | [] => ""
  | w :: ws => w ++ String.join (ws.map pyCapitalize)

/-- The snake-case-to-camelCase conversion of `generate_field_name_variations`
(line 802): split on underscores, capitalize all words but the first, join. -/
def snakeToCamel (s : String) : String := camelJoin (splitOnChar '_' s)

/-- Character expansion used by `camelToSnake`: an upper-case letter becomes
an underscore followed by its lower-case form. -/
def camelToSnakeChars : List Char → List Char
  | [] => []
  | c :: rest =>
      (if c.isUpper then ['_', c.toLower] else [c]) ++ camelToSnakeChars rest

/-- The camelCase-to-snake_case conversion of `generate_field_name_variations`
(line 807), including the final `lstrip('_')`. -/
def camelToSnake (s : String) : String :=
  String.mk ((camelToSnakeChars s.data).dropWhile (fun c => c = '_'))

/-- Python `str.split()` with no argument: the maximal non-whitespace
runs. -/
def pySplitWs (s : String) : List String := wsRunsAux [] s.data

/-- Python `field_name.replace('_', ' ')`. -/
def underscoreToSpace (s : String) : String :=
  String.mk (s.data.map (fun c => if c = '_' then ' ' else c))

/-- The module's curated `field_variations` table
(`generate_field_name_variations`, lines 811-827), verbatim. -/
def zillow_field_variations : List (String × List String) :=
  [("year_built", ["yearBuilt", "Year Built", "yearBuilt", "constructionYear"]),
   ("mls_id", ["mlsId", "mlsID", "mls_number", "mlsNumber"]),
   ("price_history", ["priceHistory", "price_history", "priceHistoryData"]),
   ("price_per_sqft", ["pricePerSqft", "pricePerSquareFoot", "pricePerSqFt", "pricePerSquareFeet"]),
   ("lot_size", ["lotSize", "lot_size", "lotSizeAcres", "lotSizeSqFt"]),
   ("home_size_sqft", ["livingArea", "homeSize", "home_size", "squareFootage"]),
   ("bedrooms", ["beds", "bedrooms", "bedRooms", "bed_count"]),
   ("bathrooms", ["baths", "bathrooms", "bathRooms", "bath_count"]),
   ("dock_info", ["dockInfo", "dock_info", "dockDetails", "dockFeatures"]),
   ("bridge_height", ["bridgeHeight", "bridge_height", "bridgeClearance", "bridgeInfo"]),
   ("water_depth", ["waterDepth", "water_depth", "depth", "waterLevel"]),
   ("canal_info", ["canalInfo", "canal_info", "canalDetails", "canalFeatures"]),
   ("ocean_access", ["oceanAccess", "ocean_access", "oceanView", "oceanFront"]),
   ("waterfront_features", ["waterfrontFeatures", "waterfront_features", "waterfrontInfo"]),
   ("water_view", ["waterView", "water_view", "waterfrontView", "waterViewType"])]

/-- Embedding of `generate_field_name_variations` (lines 785-840): the
original name, a camelCase form when the name has underscores, a snake_case
form when it has upper-case letters, the curated synonyms, and the single
words of multi-word names; Python's final `list(set(variations))` is
modelled by `List.dedup` (set iteration order is unspecified in Python, and
every property proved about this list is order-insensitive). -/
def generate_field_name_variations (field_name : String) : List String :=
  let v1 := [field_name]
  let v2 := if strContains field_name "_" then [snakeToCamel field_name] else []
  let v3 :=
    if field_name.data.any Char.isUpper && !(charsStartWith "_".data field_name.data) then
      [camelToSnake field_name]
    else []
  let v4 := ((zillow_field_variations.find? (fun e => e.1 = field_name)).map (fun e => e.2)).getD []
  let ws := pySplitWs (underscoreToSpace field_name)
  let v5 := if 1 < ws.length then ws.flatMap (fun w => [lowerStr w, pyCapitalize w]) else []
  (v1 ++ v2 ++ v3 ++ v4 ++ v5).dedup

/-- The emptiness test shared by the two JSON strategies
(`search_json_paths_flexible` line 925 and `search_recursive_json` line 951):
Python `value is not None and value != "" and value != []` fails exactly on
`None`, the empty string and the empty list.  Note that the strings
`"null"`/`"undefined"` and the empty object pass this test. -/
def isEmptyish : JValue → Bool
  | .null => true
  | .str s => s = ""
  | .arr xs => xs.isEmpty
  | _ => false

/-- Key lookup in a JSON object (Python `variation in section` /
`section[variation]`; first binding wins). -/
def objLookup (fields : List (String × JValue)) (k : String) : Option JValue :=
  (fields.find? (fun e => e.1 = k)).map (fun e => e.2)

/-- The `search_paths` list of `search_json_paths_flexible` (lines 908-916). -/
def json_search_paths : List String :=
  ["property", "listing", "address", "resoFacts", "propertyDetails",
   "listingDetails", "propertyInfo"]

/-- Inner variation loop of `search_json_paths_flexible` (lines 922-926):
first variation that is a key of the section with a non-emptyish value. -/
def firstHitInSection (fields : List (String × JValue)) : List String → Option JValue
  | [] => none
  | v :: rest =>
      match objLookup fields v with
      | some val => if isEmptyish val then firstHitInSection fields rest else some val
      | none => firstHitInSection fields rest

/-- Outer path loop of `search_json_paths_flexible` (lines 918-926): walk the
well-known section names; a section is only consulted when it is a dict. -/
def searchKnownPaths (cache : List (String × JValue)) (vars : List String) :
    List String → Option JValue
  | [] => none
  | p :: ps =>
      match objLookup cache p with
      | some (.obj fields) =>
          match firstHitInSection fields vars with
          | some v => some v
          | none => searchKnownPaths cache vars ps
      | _ => searchKnownPaths cache vars ps

/-- The fuzzy key test of `search_recursive_json` (line 950):
`variation.lower() in key.lower() or key.lower() in variation.lower()`. -/
def variationKeyMatch (vars : List String) (key : String) : Bool :=
  vars.any (fun v =>
    strContains (lowerStr key) (lowerStr v) || strContains (lowerStr v) (lowerStr key))

/-- Whether recursion descends into a value
(`isinstance(value, (dict, list))`). -/
def isContainer : JValue → Bool
  | .obj _ => true
  | .arr _ => true
  | _ => false

/-- Dict-entry loop of `search_recursive_json` (lines 947-958); `child` is
the recursive call at depth+1.  A key match returns only when the value is
not emptyish; otherwise the entry's value is still descended into when it is
a container. -/
def srjObj (km : String → Bool) (child : JValue → Option JValue) :
    List (String × JValue) → Option JValue
  | [] => none
  | (k, v) :: rest =>
      if km k && !isEmptyish v then some v
      else
        match (if isContainer v then child v else none) with
        | some r => some r
        | none => srjObj km child rest

/-- List-item loop of `search_recursive_json` (lines 960-964). -/
def srjArr (child : JValue → Option JValue) : List JValue → Option JValue
  | [] => none
  | x :: rest =>
      match child x with
      | some r => some r
      | none => srjArr child rest

/-- Embedding of `search_recursive_json` (lines 931-966).  The `fuel`
argument is `max_depth - current_depth`; the source enters with
`max_depth = 5, current_depth = 0` and children get `current_depth + 1`. -/
def search_recursive_json (vars : List String) : Nat → JValue → Option JValue
  | 0, _ => none
  | Nat.succ n, .obj fields => srjObj (variationKeyMatch vars) (search_recursive_json vars n) fields
  | Nat.succ n, .arr xs => srjArr (search_recursive_json vars n) xs
  | Nat.succ _, _ => none

/-- Embedding of `search_json_paths_flexible` (lines 896-929): well-known
paths first, then the bounded recursive search over the whole cache dict. -/
def search_json_paths_flexible (cache : List (String × JValue)) (vars : List String) :
    Option JValue :=
  match searchKnownPaths cache vars json_search_paths with
  | some v => some v
  | none => search_recursive_json vars 5 (.obj cache)

/-- Python `re.escape` (escape every character other than ASCII letters,
digits and the underscore). -/
def pyReEscape (s : String) : String :=
  String.mk (s.data.flatMap (fun c => if c.isAlphanum || c = '_' then [c] else ['\\', c]))

/-- Embedding of `generate_regex_patterns_for_field` (lines 1003-1037): the
four quoted/unquoted key-colon-value pattern strings per variation, plus the
word-pair pattern for multi-word variations.  The patterns are opaque
strings here; the regex engine itself is abstracted (see
`search_regex_in_text`). -/
def generate_regex_patterns_for_field (field_name : String) (vars : List String) :
    List String :=
  let _ := field_name
  vars.flatMap (fun v =>
    let e := pyReEscape v
    let base :=
      ["\"" ++ e ++ "\"\\s*:\\s*\"([^\"]+)\"",
       "\"" ++ e ++ "\"\\s*:\\s*([^,\\s\\\x7d]+)",
       e ++ "\\s*:\\s*\"([^\"]+)\"",
       e ++ "\\s*:\\s*([^,\\s\\\x7d]+)"]
    let extra :=
      if strContains v " " || strContains v "_" then
        let ws := pySplitWs (underscoreToSpace v)
        if 1 < ws.length then
          let alt := String.intercalate "|" ws
          ["\\b(" ++ alt ++ ")\\b.*?\\b(" ++ alt ++ ")\\b"]
        else []
      else []
    base ++ extra)

/-- The candidate filter of `search_regex_in_text` (lines 988-997) applied to
the flattened capture groups of one pattern's matches, in order: return the
stripped text of the first group that is truthy, non-blank, and whose
lower-cased raw text is not `null`/`undefined`/empty. -/
def first_valid_regex_match : List String → Option String
  | [] => none
  | g :: rest =>
      if g ≠ "" && pyStrip g ≠ "" &&
          !(lowerStr g = "null" || lowerStr g = "undefined" || lowerStr g = "") then
        some (pyStrip g)
      else first_valid_regex_match rest

/-- Pattern loop of `search_regex_in_text` (lines 983-999); `findall`
abstracts `re.findall(pattern, text, re.IGNORECASE)` with tuple matches
flattened to their groups in order. -/
def searchPatternList (findall : String → String → List String) (text : String) :
    List String → Option String
  | [] => none
  | p :: ps =>
      match first_valid_regex_match (findall p text) with
      | some v => some v
      | none => searchPatternList findall text ps

/-- Embedding of `search_regex_in_text` (lines 968-1001), parameterized by
the regex engine `findall`. -/
def search_regex_in_text (findall : String → String → List String) (text : String)
    (vars : List String) (field_name : String) : Option String :=
  searchPatternList findall text (generate_regex_patterns_for_field field_name vars)

/-- Result of the field resolver: strategy 1 yields a JSON value, strategies
2-4 yield a matched text fragment. -/
inductive FoundValue where
  | json (v : JValue)
  | text (s : String)

/-- Python truthiness of the optional text arguments of
`extract_field_flexible` (`if next_data_processed:` etc.): present and
non-empty. -/
def truthyOpt : Option String → Bool
  | none => false
  | some s => s ≠ ""

/-- One entry of the resolver's strategy cascade: guard (whether the source
consults the strategy at all), outcome, and the strategy's rank. -/
def StrategyEntry : Type := Bool × Option FoundValue × Nat

/-- Value computed by the cascade of `extract_field_flexible` (lines
861-894): first consulted strategy with a non-`None` result wins. -/
def chainValue : List StrategyEntry → Option FoundValue
  | [] => none
  | (guard, outcome, _) :: rest =>
      if guard then
        match outcome with
        | some v => some v
        | none => chainValue rest
      else chainValue rest

/-- Ranks of the strategies the cascade actually consults, in order,
stopping after the first hit. -/
def consultedRanks : List StrategyEntry → List Nat
  | [] => []
  | (guard, outcome, tag) :: rest =>
      if guard then
        match outcome with
        | some _ => [tag]
        | none => tag :: consultedRanks rest
      else consultedRanks rest

/-- The four-strategy cascade of `extract_field_flexible` (lines 842-894):
1 JSON path search in the cache, 2 regex over processed Next.js data,
3 regex over raw Next.js data, 4 regex over the HTML content.  Strategies
2-4 are guarded by truthiness of their text argument exactly as in the
source. -/
def strategyChain (findall : String → String → List String) (field_name : String)
    (cache : List (String × JValue)) (ndRaw ndProc html : Option String) :
    List StrategyEntry :=
  let vars := generate_field_name_variations field_name
  [(true, (search_json_paths_flexible cache vars).map FoundValue.json, 1),
   (truthyOpt ndProc,
     (search_regex_in_text findall (ndProc.getD "") vars field_name).map FoundValue.text, 2),
   (truthyOpt ndRaw,
     (search_regex_in_text findall (ndRaw.getD "") vars field_name).map FoundValue.text, 3),
   (truthyOpt html,
     (search_regex_in_text findall (html.getD "") vars field_name).map FoundValue.text, 4)]

/-- Embedding of `extract_field_flexible` (lines 842-894): the returned
value together with the ranks of the strategies that were consulted. -/
def extract_field_flexible (findall : String → String → List String)
    (field_name : String) (cache : List (String × JValue))
    (ndRaw ndProc html : Option String) : Option FoundValue × List Nat :=
  (chainValue (strategyChain findall field_name cache ndRaw ndProc html),
   consultedRanks (strategyChain findall field_name cache ndRaw ndProc html))

/-- Outcome of strategy `k` viewed in isolation (0 when `k` is not one of
the four strategies): what the source's strategy-`k` block would produce,
`none` when its guard is off. -/
def strategyHit (findall : String → String → List String) (field_name : String)
    (cache : List (String × JValue)) (ndRaw ndProc html : Option String)
    (k : Nat) : Option FoundValue :=
  let vars := generate_field_name_variations field_name
  match k with
  | 1 => (search_json_paths_flexible cache vars).map FoundValue.json
  | 2 => if truthyOpt ndProc then
          (search_regex_in_text findall (ndProc.getD "") vars field_name).map FoundValue.text
         else none
  | 3 => if truthyOpt ndRaw then
          (search_regex_in_text findall (ndRaw.getD "") vars field_name).map FoundValue.text
         else none
  | 4 => if truthyOpt html then
          (search_regex_in_text findall (html.getD "") vars field_name).map FoundValue.text
         else none
  | _ => none

/-- Raw dictionary lookup (Python `property_data['k']` presence; the first
binding wins, mirroring dict key uniqueness). -/
def rawGet (pd : List (String × JValue)) (k : String) : Option JValue :=
  (pd.find? (fun e => e.1 = k)).map (fun e => e.2)

/-- Python `property_data.get(k)`: a missing key and a key bound to `None`
are indistinguishable, so both map to `none`. -/
def pget (pd : List (String × JValue)) (k : String) : Option JValue :=
  match rawGet pd k with
  | some .null => none
  | x => x

/-- Python `str(...)` on the values that reach it in
`store_property_to_database` (the `zpid` field and waterfront keywords);
container renderings are abbreviated, no claim evaluates them. -/
def pyStr : JValue → String
  | .null => "None"
  | .bool b => if b then "True" else "False"
  | .num n => toString n
  | .str s => s
  | .arr _ => "[...]"
  | .obj _ => "\x7b...\x7d"

/-- The `zpid = str(property_data.get('zpid', ''))` line (1048). -/
def zpidString (pd : List (String × JValue)) : String :=
  match rawGet pd "zpid" with
  | none => ""
  | some v => pyStr v

/-- Columns of `listings_summary` that both the change detector and the
upsert touch; the remaining columns play no role in any claim and are
omitted (they follow the same `ON CONFLICT ... DO UPDATE` replacement). -/
structure SummaryRow where
  price : Option JValue
  beds : Option JValue
  baths : Option JValue
  home_size_sqft : Option JValue
  home_status : Option JValue
  days_on_zillow : Option JValue

/-- Subset of `listings_detail` columns kept in the model (the rest follow
the same replacement pattern and are irrelevant to the claims). -/
structure DetailRow where
  description_raw : Option JValue
  boat_access : Bool

/-- One row of `property_photos` (lines 1312-1322); the photo payload is
kept whole, `photo_order` is the insertion index `i`. -/
structure PhotoRow where
  zpid : String
  photo_order : Nat
  photo : JValue

/-- The three tables of the durable store that the settled claims mention;
`listing_text_content` follows the same (zpid, content_type)-keyed
replace-on-conflict pattern and is not needed by any claim. -/
structure DBState where
  summary : List (String × SummaryRow)
  detail : List (String × DetailRow)
  photos : List PhotoRow

/-- Action component of the result dict of `store_property_to_database`. -/
inductive DBAction where
  | insert
  | update
  | no_change
  | error
deriving DecidableEq

/-- Result dict of `store_property_to_database` (line 1041). -/
structure StoreResult where
  success : Bool
  action : DBAction
  zpid : String

/-- `INSERT ... ON CONFLICT (zpid) DO UPDATE` semantics on a keyed table:
replace the row when the key exists, else append. -/
def upsertRow {α : Type} (k : String) (v : α) : List (String × α) → List (String × α)
  | [] => [(k, v)]
  | (k2, v2) :: rest =>
      if k = k2 then (k, v) :: rest else (k2, v2) :: upsertRow k v rest

/-- `SELECT * FROM listings_summary WHERE zpid = :zpid` (line 1065). -/
def lookupRow {α : Type} (k : String) (rows : List (String × α)) : Option α :=
  (rows.find? (fun r => r.1 = k)).map (fun r => r.2)

/-- Equality test on optional JSON values, modelling Python `!=` in the
key-field comparison (line 1080). -/
def optJEq : Option JValue → Option JValue → Bool
  | none, none => true
  | some a, some b => beqJ a b
  | _, _ => false

/-- The change detector of `store_property_to_database` (lines 1070-1082):
compare the six `key_fields` columns of the stored row against
`property_data.get(field)` under the column names themselves.  Note the
write below fills `beds`/`baths`/`home_size_sqft` from
`property_data['bedrooms'/'bathrooms'/'livingArea']`, while this comparison
reads `property_data.get('beds'/'baths'/'home_size_sqft')`. -/
def dataChanged (row : SummaryRow) (pd : List (String × JValue)) : Bool :=
  !optJEq row.price (pget pd "price") ||
  !optJEq row.beds (pget pd "beds") ||
  !optJEq row.baths (pget pd "baths") ||
  !optJEq row.home_size_sqft (pget pd "home_size_sqft") ||
  !optJEq row.home_status (pget pd "home_status") ||
  !optJEq row.days_on_zillow (pget pd "days_on_zillow")

/-- The summary-row parameters of the upsert (lines 1106-1133), restricted
to the modelled columns: `beds` from `bedrooms`, `baths` from `bathrooms`,
`home_size_sqft` from `livingArea`, the others from the same-named keys. -/
def summaryRowOf (pd : List (String × JValue)) : SummaryRow :=
  { price := pget pd "price"
    beds := pget pd "bedrooms"
    baths := pget pd "bathrooms"
    home_size_sqft := pget pd "livingArea"
    home_status := pget pd "home_status"
    days_on_zillow := pget pd "days_on_zillow" }

/-- The `boat_access` derivation (lines 1162-1164): the joined waterfront
keywords, lower-cased, contain `dock`, `boat` or `marina`. -/
def boatAccess (pd : List (String × JValue)) : Bool :=
  match pget pd "waterfront_keywords" with
  | some (.arr ks) =>
      let joined := String.intercalate " " (ks.map pyStr)
      ["dock", "boat", "marina"].any (fun t => strContains (lowerStr joined) t)
  | _ => false

/-- The detail-row parameters of the detail upsert (lines 1273-1291),
restricted to the modelled columns. -/
def detailRowOf (pd : List (String × JValue)) : DetailRow :=
  { description_raw := pget pd "description"
    boat_access := boatAccess pd }

/-- `photos = property_data.get('photos', [])` (line 1299). -/
def photosOf (pd : List (String × JValue)) : List JValue :=
  match pget pd "photos" with
  | some (.arr xs) => xs
  | _ => []

/-- The photo insertion loop (lines 1306-1322): rows for the listing with
`photo_order` equal to the running index. -/
def insertPhotos (z : String) : Nat → List JValue → List PhotoRow
  | _, [] => []
  | i, p :: ps => ⟨z, i, p⟩ :: insertPhotos z (i + 1) ps

/-- Embedding of `store_property_to_database` (lines 1039-1437): read the
existing summary row, compute `data_changed`, upsert summary and detail,
replace the photo rows (delete-then-insert of the first ten) when the
record's photo list is non-empty, and report
insert/update/no_change accordingly.  The wall-clock timeout checks never
fire in this pure model, and the exception path cannot occur. -/
def store_property_to_database (db : DBState) (pd : List (String × JValue)) :
    StoreResult × DBState :=
  let z := zpidString pd
  if z = "" then (⟨false, .error, ""⟩, db)
  else
    let existing := lookupRow z db.summary
    let db1 : DBState :=
      { db with summary := upsertRow z (summaryRowOf pd) db.summary }
    let db2 : DBState :=
      { db1 with detail := upsertRow z (detailRowOf pd) db1.detail }
    let ph := photosOf pd
    let db3 : DBState :=
      if ph.isEmpty then db2
      else { db2 with photos :=
        db2.photos.filter (fun r => r.zpid ≠ z) ++ insertPhotos z 0 (ph.take 10) }
    let action :=
      match existing with
      | none => DBAction.insert
      | some row => if dataChanged row pd then DBAction.update else DBAction.no_change
    (⟨true, action, z⟩, db3)

/-- Per-URL environment for the processing loops: what fetching, payload
extraction and persistence do for that URL.  `noContent` covers a failed
fetch, a missing payload or a missing cache (the source returns `{}`);
`stored` is a successful extraction whose store call succeeded;
`storeFailed` is a successful extraction whose store call reported
failure. -/
inductive SingleOutcome where
  | noContent
  | stored (pd : List (String × JValue))
  | storeFailed (pd : List (String × JValue))

/-- Embedding of `_extract_single_property` (lines 2726-2804): fetch/parse
failures return the empty record, a persistence failure raises (lines
2795-2799 log the failure and `raise Exception(...)`), success returns the
record. -/
def extract_single_property (env : String → SingleOutcome) (url : String) :
    Except String (List (String × JValue)) :=
  match env url with
  | .noContent => .ok []
  | .stored pd => .ok pd
  | .storeFailed pd =>
      .error ("Database storage failed for property " ++
        pyStr ((rawGet pd "zpid").getD JValue.null))

/-- Embedding of the per-listing loop of `extract_multiple_properties`
(lines 2806-2858): each URL is processed under a `try`; a raised exception
is caught (line 2844), the URL is appended to `failed_urls`, and the loop
continues with the remaining URLs.  An empty result also goes to
`failed_urls`.  Returns (results, failed_urls). -/
def extract_multiple_properties (env : String → SingleOutcome) :
    List String → List (List (String × JValue)) × List String
  | [] => ([], [])
  | u :: rest =>
      let acc := extract_multiple_properties env rest
      match extract_single_property env u with
      | .ok pd => if pd.isEmpty then (acc.1, u :: acc.2) else (pd :: acc.1, acc.2)
      | .error _ => (acc.1, u :: acc.2)

/-- State of the pagination loop of `_extract_all_property_urls_from_search`
(lines 2411-2415): current page number, the consecutive-empty-page counter,
the set of already seen URLs and the collected unique URLs. -/
structure CrawlState where
  page : Nat
  consecEmpty : Nat
  seen : List String
  all : List String

/-- Loop guard (line 2420): within the page limit (when one is given) and
fewer than `max_empty_pages = 5` consecutive empty pages. -/
def crawl_guard (maxPages : Option Nat) (st : CrawlState) : Bool :=
  (match maxPages with
   | none => true
   | some mp => st.page ≤ mp) && st.consecEmpty < 5

/-- The new-URL loop (lines 2458-2470): add unseen URLs, returning early
(third component true) as soon as the collection reaches
`max_properties_per_search`. -/
def addNewUrls (maxProps : Nat) (seen all : List String) :
    List String → List String × List String × Bool
  | [] => (seen, all, false)
  | u :: rest =>
      if seen.contains u then addNewUrls maxProps seen all rest
      else
        let seen2 := u :: seen
        let all2 := all ++ [u]
        if maxProps ≤ all2.length then (seen2, all2, true)
        else addNewUrls maxProps seen2 all2 rest

/-- One iteration of the pagination loop body (lines 2420-2495).  An empty
page increments the streak counter and moves on (lines 2440-2444).  A
non-empty page resets the counter to zero (line 2447), collects new URLs
(early return at the property limit, line 2470), and then—only when no URL
was new and the page number exceeds three—sets the counter to one (lines
2482-2486): the just-performed reset caps the streak at one for every
non-empty page. -/
def crawl_body (pageFn : Nat → List String) (maxProps : Nat) (st : CrawlState) :
    CrawlState ⊕ List String :=
  let urls := pageFn st.page
  if urls.isEmpty then
    Sum.inl { st with page := st.page + 1, consecEmpty := st.consecEmpty + 1 }
  else
    let res := addNewUrls maxProps st.seen st.all urls
    if res.2.2 then Sum.inr res.2.1
    else
      let newCount := res.2.1.length - st.all.length
      let ce := if newCount = 0 && decide (3 < st.page) then 1 else 0
      Sum.inl { page := st.page + 1, consecEmpty := ce, seen := res.1, all := res.2.1 }

/-- Fuel-indexed run of the pagination loop; `none` means the loop is still
running after `fuel` iterations (the source has no other exit). -/
def run_crawl (maxPages : Option Nat) (pageFn : Nat → List String) (maxProps : Nat) :
    Nat → CrawlState → Option (List String)
  | 0, _ => none
  | Nat.succ n, st =>
      if crawl_guard maxPages st then
        match crawl_body pageFn maxProps st with
        | .inr res => some res
        | .inl st2 => run_crawl maxPages pageFn maxProps n st2
      else some st.all

/-- Initial state of the pagination loop (lines 2411-2414). -/
def crawl_init : CrawlState := ⟨1, 0, [], []⟩

/-- ZPID extraction of the pre-fetch filter
(`re.search(r'/([^/]+)_zpid/$', prop_url)`, line 2250): the URL must end in
`_zpid/`, and the capture is the non-empty run of non-slash characters
after the last preceding slash. -/
def zpid_from_url (url : String) : Option String :=
  let rcs := url.data.reverse
  if charsStartWith "/dipz_".data rcs then
    let rbody := rcs.drop 6
    let rseg := rbody.takeWhile (fun c => c ≠ '/')
    if rseg.isEmpty then none
    else if rbody.length = rseg.length then none
    else some (String.mk rseg.reverse)
  else none

/-- Embedding of the pre-filter of `extract_property` (lines 2244-2266):
before any property page is fetched, drop every URL whose extractable ZPID
is already in the dedup index (`_is_property_already_scraped_db` against the
stored identifiers); URLs without an extractable ZPID are kept.  The
resulting list is exactly what `_extract_properties_concurrent` or the
sequential loop goes on to fetch. -/
def pre_filter_urls (index : List String) (urls : List String) : List String :=
  urls.filter (fun u =>
    match zpid_from_url u with
    | some z => !index.contains z
    | none => true)

/-- State of the bounded fetcher's gate: free permits of
`asyncio.Semaphore(max_concurrent_properties)` (line 2689) and the number
of fetches currently inside the `async with semaphore:` block of
`extract_with_semaphore` (lines 2691-2698). -/
structure FetcherState where
  avail : Nat
  inFlight : Nat

/-- Reachable gate states: the system starts with `n` permits and nothing
in flight; a fetch starts only by consuming a permit (the `async with`
entry suspends when none is free) and releases it on exit.  This is the
step relation of the cooperative scheduler restricted to the gate. -/
inductive FetcherReach (n : Nat) : FetcherState → Prop where
  | init : FetcherReach n ⟨n, 0⟩
  | acquire (a f : Nat) : FetcherReach n ⟨a + 1, f⟩ → FetcherReach n ⟨a, f + 1⟩
  | release (a f : Nat) : FetcherReach n ⟨a, f + 1⟩ → FetcherReach n ⟨a + 1, f⟩

/-!
Model of the offline text miner `find_waterfront_footage_v4.py`.  The
regular expressions applied by `extract_from_line` are hand-translated into
character-level matchers over the lower-cased text (every pattern carries
`re.IGNORECASE`).  `\b` is a word-boundary: it holds at a position exactly
when one side is a word character and the other is not (or is the string
edge).
-/

/-- Literal match: returns the remaining text when `needle` is an initial
segment of `hay`. -/
def matchLit : List Char → List Char → Option (List Char)
  | [], rest => some rest
  | _ :: _, [] => none
  | n :: ns, h :: hs => if n = h then matchLit ns hs else none

/-- Regex `\s*`: drop leading whitespace. -/
def dropWs (l : List Char) : List Char := l.dropWhile Char.isWhitespace

/-- Whether the text starts with a word character (false at the edge). -/
def headIsWord : List Char → Bool
  | [] => false
  | c :: _ => isWordCh c

/-- Regex `\b` placed after a character `last`. -/
def boundaryAfter (last : Char) (rest : List Char) : Bool :=
  isWordCh last != headIsWord rest

/-- Literal token followed by `\b`, tracking the token's last character. -/
def matchTokAux (prev : Char) : List Char → List Char → Bool
  | [], rest => boundaryAfter prev rest
  | n :: ns, h :: hs => n = h && matchTokAux h ns hs
  | _ :: _, [] => false

/-- Match a non-empty literal token followed by a word boundary. -/
def matchTok (t l : List Char) : Bool :=
  match t, l with
  | n :: ns, h :: hs => n = h && matchTokAux h ns hs
  | _, _ => false

/-- `FEET_QUOTE`: a straight or curly apostrophe. -/
def feetQuote (c : Char) : Bool := c = Char.ofNat 39 || c = Char.ofNat 0x2019

/-- First suffix alternative of `UNIT_PHRASE_RE` (line 85):
`\s*{FEET_QUOTE}(?:\s+(?:slips?|docks?|wf)\b|\b)`.  After the quote, either
at least one whitespace followed by `slip(s)`/`dock(s)`/`wf` with a
boundary, or a bare `\b` — which, the quote being a non-word character,
holds exactly when the next character is a word character. -/
def upAltQuote (l : List Char) : Bool :=
  match dropWs l with
  | c :: r =>
      feetQuote c &&
        ((match r with
          | c2 :: _ => c2.isWhitespace &&
              (["slips", "slip", "docks", "dock", "wf"].map String.data).any
                (fun t => matchTok t (dropWs r))
          | [] => false)
         || headIsWord r)
  | [] => false

/-- Second suffix alternative (line 86): `\s*"\s*docks?\b`. -/
def upAltDq (l : List Char) : Bool :=
  match dropWs l with
  | c :: r => c = '"' &&
      (matchTok "docks".data (dropWs r) || matchTok "dock".data (dropWs r))
  | [] => false

/-- The `water(?:\s*front(?:age)?|frontage|font)` compound of the third
suffix alternative (line 89), followed by `\b`. -/
def upAltWater (l : List Char) : Bool :=
  match matchLit "water".data l with
  | some r =>
      (match matchLit "front".data (dropWs r) with
       | some r2 =>
           (match matchLit "age".data r2 with
            | some r3 => boundaryAfter 'e' r3 || boundaryAfter 't' r2
            | none => boundaryAfter 't' r2)
       | none => false)
      || (match matchLit "frontage".data r with
          | some r2 => boundaryAfter 'e' r2
          | none => false)
      || (match matchLit "font".data r with
          | some r2 => boundaryAfter 't' r2
          | none => false)
  | none => false

/-- Third suffix alternative (lines 87-91): `\s*` then one of the
unit/noun tokens, followed by `\b`. -/
def upAltUnits (l : List Char) : Bool :=
  let l1 := dropWs l
  (["ft.", "ft", "feet", "foot", "docks", "dock", "dockage", "slips", "slip",
    "wf", "frontage", "seawall", "bulkhead", "depth",
    "t-dock", "tdock", "u-dock", "udock"].map String.data).any
      (fun t => matchTok t l1)
  || upAltWater l1

/-- Fourth suffix alternative (line 92): `\s*(?:ft|ft\.)\s*of\b`. -/
def upAltFtOf (l : List Char) : Bool :=
  match matchLit "ft".data (dropWs l) with
  | some r =>
      matchTok "of".data (dropWs r) ||
      (match r with
       | c :: r2 => c = '.' && matchTok "of".data (dropWs r2)
       | [] => false)
  | none => false

/-- Fifth suffix alternative (line 93): `\s*feet\s*of\b`. -/
def upAltFeetOf (l : List Char) : Bool :=
  match matchLit "feet".data (dropWs l) with
  | some r => matchTok "of".data (dropWs r)
  | none => false

/-- The whole suffix alternation of `UNIT_PHRASE_RE` (lines 84-94), applied
to the text right after the 2-3 digit number. -/
def unitSuffix (l : List Char) : Bool :=
  upAltQuote l || upAltDq l || upAltUnits l || upAltFtOf l || upAltFeetOf l

/-- Numeric value of a digit run. -/
def digitsVal (ds : List Char) : Nat :=
  ds.foldl (fun a c => a * 10 + (c.toNat - 48)) 0

/-- A `UNIT_PHRASE_RE` core match starting at this position: a maximal digit
run of length two or three — `(?<!\d)` holds because the caller only probes
positions not preceded by a digit, `(?!\d)` because the run is maximal —
whose following text satisfies the suffix alternation.  The optional word
groups of the pattern never affect whether a match exists. -/
def upHere (l : List Char) : List Nat :=
  let ds := l.takeWhile Char.isDigit
  if 2 ≤ ds.length && ds.length ≤ 3 && unitSuffix (l.drop ds.length) then
    [digitsVal ds]
  else []

/-- Scan every position of the text for `UNIT_PHRASE_RE` core matches. -/
def upScan (prev : Option Char) : List Char → List Nat
  | [] => []
  | c :: rest =>
      (if (match prev with
           | some p => !p.isDigit
           | none => true) then upHere (c :: rest) else [])
      ++ upScan (some c) rest

/-- All numbers at which the mandatory core of `UNIT_PHRASE_RE`
(lines 79-99) matches the lower-cased line text. -/
def unit_phrase_numbers (s : String) : List Nat :=
  upScan none (s.data.map Char.toLower)

/-- A `LABEL_RE` match for the `dock length` label at this position
(lines 111-129): `\bdock\s+length\s*:\s*` then either a 2-3 digit run or a
2-4 digit run followed by `\s*` and a foot-quote. -/
def labelDockAt (prev : Option Char) (l : List Char) : List Nat :=
  if (match prev with
      | some p => !isWordCh p
      | none => true) then
    match matchLit "dock".data l with
    | some r =>
        match r with
        | c :: _ =>
            if c.isWhitespace then
              match matchLit "length".data (dropWs r) with
              | some r2 =>
                  (match dropWs r2 with
                   | c2 :: r3 =>
                       if c2 = ':' then
                         let r4 := dropWs r3
                         let ds := r4.takeWhile Char.isDigit
                         if 2 ≤ ds.length && ds.length ≤ 3 then [digitsVal ds]
                         else if ds.length = 4 then
                           (match dropWs (r4.drop 4) with
                            | q :: _ => if feetQuote q then [digitsVal ds] else []
                            | [] => [])
                         else []
                       else []
                   | [] => [])
              | none => []
            else []
        | [] => []
    | none => []
  else []

/-- Scan for `dock length:` labels over the whole text. -/
def labelDockScan (prev : Option Char) : List Char → List Nat
  | [] => []
  | c :: rest => labelDockAt prev (c :: rest) ++ labelDockScan (some c) rest

/-- All numbers captured by `LABEL_RE` under the `dock length` label —
the only label that `extract_from_line` routes to `dock_linear_ft`
(lines 319-320). -/
def label_dock_numbers (s : String) : List Nat :=
  labelDockScan none (s.data.map Char.toLower)

/-- Dash alternatives of `RANGE_RE` (line 142). -/
def isDash (c : Char) : Bool :=
  c = '-' || c = Char.ofNat 0x2013 || c = Char.ofNat 0x2014

/-- Trailing unit of `RANGE_RE`: `(?:{FEET_QUOTE}\b|ft\.?\b|feet\b)`. -/
def rangeUnit (l : List Char) : Bool :=
  (match l with
   | c :: r => feetQuote c && headIsWord r
   | [] => false)
  || matchTok "ft".data l || matchTok "ft.".data l || matchTok "feet".data l

/-- Python `int(round((a + b) / 2))`: the mean with round-half-to-even. -/
def pyRoundMean (a b : Nat) : Nat :=
  let s := a + b
  if s % 2 = 0 then s / 2
  else if (s / 2) % 2 = 1 then s / 2 + 1 else s / 2

/-- A `RANGE_RE` match starting at this position (line 142):
`(?<!\d)(\d{2,3})\s*(?:-|–|—|\bto\b)\s*(\d{2,3})\s*` and a unit; yields the
rounded mean when both endpoints are truthy (`if a and b`, line 333). -/
def rangeAt (prev : Option Char) (l : List Char) : List Nat :=
  if (match prev with
      | some p => !p.isDigit
      | none => true) then
    let ds := l.takeWhile Char.isDigit
    if 2 ≤ ds.length && ds.length ≤ 3 then
      let r1 := l.drop ds.length
      let r2 := dropWs r1
      let hadWs := decide (r2.length < r1.length)
      let afterSep : Option (List Char) :=
        match r2 with
        | c :: r3 =>
            if isDash c then some r3
            else if hadWs then
              match matchLit "to".data r2 with
              | some r4 => if headIsWord r4 then none else some r4
              | none => none
            else none
        | [] => none
      match afterSep with
      | some rr =>
          let r5 := dropWs rr
          let ds2 := r5.takeWhile Char.isDigit
          if 2 ≤ ds2.length && ds2.length ≤ 3 &&
              rangeUnit (dropWs (r5.drop ds2.length)) &&
              decide (digitsVal ds ≠ 0) && decide (digitsVal ds2 ≠ 0) then
            [pyRoundMean (digitsVal ds) (digitsVal ds2)]
          else []
      | none => []
    else []
  else []

/-- Scan for `RANGE_RE` matches over the whole text. -/
def rangeScan (prev : Option Char) : List Char → List Nat
  | [] => []
  | c :: rest => rangeAt prev (c :: rest) ++ rangeScan (some c) rest

/-- All rounded means of `RANGE_RE` matches (lines 331-340). -/
def range_mean_numbers (s : String) : List Nat :=
  rangeScan none (s.data.map Char.toLower)

/-- The `fixed\s+bridges?\b` tail of `NO_FIXED_BRIDGES_RE` (line 152). -/
def nfbFixedTail (l : List Char) : Bool :=
  match matchLit "fixed".data l with
  | some r =>
      match r with
      | c :: _ =>
          c.isWhitespace &&
            ((match matchLit "bridges".data (dropWs r) with
              | some r2 => !headIsWord r2
              | none => false)
             || (match matchLit "bridge".data (dropWs r) with
                 | some r2 => !headIsWord r2
                 | none => false))
      | [] => false
  | none => false

/-- The `.{0,6}\bfixed...` part: try the tail after 0 up to `g` gap
characters (none of which may be a newline), tracking the previous character
for the word boundary before `fixed`. -/
def nfbGap : Nat → Char → List Char → Bool
  | 0, prev, l => !isWordCh prev && nfbFixedTail l
  | g + 1, prev, l =>
      (!isWordCh prev && nfbFixedTail l) ||
      (match l with
       | c :: rest => c ≠ '\n' && nfbGap g c rest
       | [] => false)

/-- A `NO_FIXED_BRIDGES_RE` match starting at this position:
`\bno\b.{0,6}\bfixed\s+bridges?\b`. -/
def nfbAt (prev : Option Char) (l : List Char) : Bool :=
  (match prev with
   | some p => !isWordCh p
   | none => true) &&
  (match matchLit "no".data l with
   | some r => !headIsWord r && nfbGap 6 'o' r
   | none => false)

/-- Scan for `NO_FIXED_BRIDGES_RE` over the whole text. -/
def nfbScan (prev : Option Char) : List Char → Bool
  | [] => false
  | c :: rest => nfbAt prev (c :: rest) || nfbScan (some c) rest

/-- Embedding of `NO_FIXED_BRIDGES_RE.search(rest)` (lines 152, 371-373)
on the lower-cased line text. -/
def no_fixed_bridges (s : String) : Bool :=
  nfbScan none (s.data.map Char.toLower)

/-- Python `max(values, default=None)`. -/
def listMaxOpt : List Nat → Option Nat
  | [] => none
  | x :: xs => some (xs.foldl Nat.max x)

/-- Superset of every value `extract_from_line` can append to
`feats["dock_linear_ft"]` (lines 292-307, 310-328, 331-340): all
`UNIT_PHRASE_RE` core numbers (the source keeps those whose snippet
contains a dock word), all `dock length` label numbers, and all `RANGE_RE`
means (the source keeps those with a dock word within 40 characters).
When this list is empty the source's `dock_linear_ft` is necessarily
`None`. -/
def extract_from_line_dock_candidates (rest : String) : List Nat :=
  unit_phrase_numbers rest ++ label_dock_numbers rest ++ range_mean_numbers rest

/-- The `dock_linear_ft` cell of the row built by `extract_from_line`
(line 395): the maximum of the collected values, `None` when there are
none; evaluated over the candidate superset, which coincides with the
source exactly when the superset is empty. -/
def extract_from_line_dock_ft (rest : String) : Option Nat :=
  listMaxOpt (extract_from_line_dock_candidates rest)

/-- The description text of the claim's example line. -/
def c8_line : String := "Private dock with 60' dockage and no fixed bridges"

/-- A regex engine that finds nothing; used where only the JSON strategy is
exercised. -/
def findall_empty : String → String → List String := fun _ _ => []

/-- Cache payload of the resolver example: `{"resoFacts": {"yearBuilt": 1998}}`. -/
def c3_cache : List (String × JValue) :=
  [("resoFacts", JValue.obj [("yearBuilt", JValue.num 1998)])]

/-- Cache payload whose `year_built` value is the string `"null"`. -/
def c6_cache : List (String × JValue) :=
  [("property", JValue.obj [("year_built", JValue.str "null")])]

/-- Two-listing environment: persistence fails for the first URL and
succeeds for the second. -/
def c2_env : String → SingleOutcome := fun u =>
  if u = "u1" then SingleOutcome.storeFailed [("zpid", JValue.str "1")]
  else SingleOutcome.stored [("zpid", JValue.str "2")]

/-- A listing record carrying its bed count under the `bedrooms` key, the
shape `extract_property_data_flexible` produces (line 1467). -/
def c1_record : List (String × JValue) :=
  [("zpid", JValue.str "44444444"), ("bedrooms", JValue.num 3)]

/-- The store after the first upsert of `c1_record`. -/
def c1_db : DBState :=
  (store_property_to_database ⟨[], [], []⟩ c1_record).2

/-- The single property URL every search page of the C4 scenario returns. -/
def c4_url : String := "https://www.zillow.com/homedetails/1_zpid/"

/-- A search whose every page returns the same non-empty listing: zero new
URLs from page 2 on. -/
def c4_page : Nat → List String := fun _ => [c4_url]

/-- A store already holding one photo row for listing `7`. -/
def c9_db : DBState := ⟨[], [], [⟨"7", 0, JValue.str "old"⟩]⟩

/-- A record for listing `7` with a one-photo list. -/
def c9_record : List (String × JValue) :=
  [("zpid", JValue.str "7"), ("photos", JValue.arr [JValue.str "p1"])]

/-!  Theorems.  Each claim of the specification is settled by exactly one
theorem below; helper lemmas carry no claim. -/

/-- Helper for C7: every reachable gate state keeps the permit count and the
in-flight count summing to the configured bound. -/
theorem fetcher_inv {n : Nat} {s : FetcherState} (h : FetcherReach n s) :
    s.avail + s.inFlight = n := by
  induction h with
  | init => rfl
  | acquire a f _ ih => dsimp at ih ⊢; omega
  | release a f _ ih => dsimp at ih ⊢; omega

/-- C7: at no point during a run are more than `N` property-page fetches in
flight simultaneously, `N` being `max_concurrent_properties`: in every state
reachable through the semaphore gate of `_extract_properties_concurrent`,
the number of fetches inside the gate is at most `N`. -/
theorem zillow_c7_bounded_inflight (n : Nat) (s : FetcherState)
    (h : FetcherReach n s) : s.inFlight ≤ n := by
  have := fetcher_inv h
  omega

/-- Witness for C7 at `N = 2` and the state with one fetch in flight. -/
theorem zillow_c7_witness : (FetcherState.mk 1 1).inFlight ≤ 2 :=
  zillow_c7_bounded_inflight 2 ⟨1, 1⟩
    (FetcherReach.acquire 1 0 FetcherReach.init)

/-- C10: the variation list always contains the original field name and
holds no duplicate entries. -/
theorem zillow_c10_variations_contain_original_nodup (field_name : String) :
    field_name ∈ generate_field_name_variations field_name ∧
    (generate_field_name_variations field_name).Nodup := by
  constructor
  · unfold generate_field_name_variations
    rw [List.mem_dedup]
    simp
  · exact List.nodup_dedup _

/-- Witness for C10 at the concrete field name `mls_id`. -/
theorem zillow_c10_witness :
    "mls_id" ∈ generate_field_name_variations "mls_id" ∧
    (generate_field_name_variations "mls_id").Nodup :=
  zillow_c10_variations_contain_original_nodup "mls_id"

/-- C5: a URL whose extractable listing identifier is already in the dedup
index never survives the pre-fetch filter of `extract_property`, so it is
dropped before being queued for fetch. -/
theorem zillow_c5_dedup_dropped_before_fetch (index urls : List String)
    (u z : String) (h1 : zpid_from_url u = some z) (h2 : z ∈ index) :
    u ∉ pre_filter_urls index urls := by
  intro hmem
  rw [pre_filter_urls, List.mem_filter] at hmem
  rw [h1] at hmem
  simp at hmem
  exact hmem.2 h2

/-- Witness for C5: identifier `123` is indexed, and its canonical URL is
dropped while the un-indexed one is not involved. -/
theorem zillow_c5_witness :
    "https://www.zillow.com/homedetails/123_zpid/" ∉
      pre_filter_urls ["123"]
        ["https://www.zillow.com/homedetails/123_zpid/",
         "https://www.zillow.com/homedetails/456_zpid/"] :=
  zillow_c5_dedup_dropped_before_fetch _ _ _ "123" rfl (by simp)

/-- Counterexample to C2 as stated: with persistence failing for `u1`, the
loop of `extract_multiple_properties` still processes the remaining listing
`u2` (its record is produced) and merely records `u1` as failed — the run
does not stop and the error is not propagated. -/
theorem zillow_c2_counterexample :
    (extract_multiple_properties c2_env ["u1", "u2"]).1 =
        [[("zpid", JValue.str "2")]] ∧
    (extract_multiple_properties c2_env ["u1", "u2"]).2 = ["u1"] :=
  ⟨rfl, rfl⟩

/-- C2 (amended): a persistence failure makes `_extract_single_property`
raise, but the per-listing loop catches the exception, records the listing
as failed, and continues with the remaining listings. -/
theorem zillow_c2_loop_catches_and_continues (env : String → SingleOutcome)
    (u : String) (rest : List String) (pd : List (String × JValue))
    (h : env u = SingleOutcome.storeFailed pd) :
    (∃ msg, extract_single_property env u = Except.error msg) ∧
    extract_multiple_properties env (u :: rest) =
      ((extract_multiple_properties env rest).1,
       u :: (extract_multiple_properties env rest).2) := by
  constructor
  · exact ⟨"Database storage failed for property " ++
      pyStr ((rawGet pd "zpid").getD JValue.null),
      by simp [extract_single_property, h]⟩
  · simp [extract_multiple_properties, extract_single_property, h]

/-- Witness for the amended C2 at the two-listing environment. -/
theorem zillow_c2_loop_catches_witness :
    (∃ msg, extract_single_property c2_env "u1" = Except.error msg) ∧
    extract_multiple_properties c2_env ["u1", "u2"] =
      ((extract_multiple_properties c2_env ["u2"]).1,
       "u1" :: (extract_multiple_properties c2_env ["u2"]).2) :=
  zillow_c2_loop_catches_and_continues c2_env "u1" ["u2"]
    [("zpid", JValue.str "1")] rfl

/-- C1 (code bug): upserting `c1_record` twice succeeds both times and
leaves exactly one summary and one detail row, but the second identical
upsert reports `update`, not `no_change`: the change detector compares the
stored `beds` column (written from `property_data['bedrooms']`) against
`property_data.get('beds')`, which is absent. -/
theorem zillow_c1_second_upsert_not_no_change :
    (store_property_to_database ⟨[], [], []⟩ c1_record).1.success = true ∧
    (store_property_to_database ⟨[], [], []⟩ c1_record).1.action = DBAction.insert ∧
    (store_property_to_database c1_db c1_record).1.success = true ∧
    (store_property_to_database c1_db c1_record).1.action = DBAction.update ∧
    (store_property_to_database c1_db c1_record).1.action ≠ DBAction.no_change ∧
    ((store_property_to_database c1_db c1_record).2.summary.filter
        (fun r => r.1 = "44444444")).length = 1 ∧
    ((store_property_to_database c1_db c1_record).2.detail.filter
        (fun r => r.1 = "44444444")).length = 1 :=
  ⟨rfl, rfl, rfl, rfl, by decide, rfl, rfl⟩

/-- Helper for C4: once the crawl has seen the repeated URL, every further
iteration of the loop keeps the streak counter at most one — the reset at
the top of the non-empty-page branch undoes the accumulation — so the run
never stops. -/
theorem c4_inv (fuel : Nat) :
    ∀ st : CrawlState, st.consecEmpty ≤ 1 → st.seen = [c4_url] →
      st.all = [c4_url] → run_crawl none c4_page 100 fuel st = none := by
  induction fuel with
  | zero => intro st _ _ _; rfl
  | succ n ih =>
    rintro ⟨p, ce, seen, all⟩ hce hseen hall
    dsimp at hce hseen hall
    subst hseen hall
    have hg : crawl_guard none ⟨p, ce, [c4_url], [c4_url]⟩ = true := by
      simp [crawl_guard]
      omega
    rw [run_crawl, if_pos hg]
    have hb : crawl_body c4_page 100 ⟨p, ce, [c4_url], [c4_url]⟩ =
        Sum.inl ⟨p + 1, if 3 < p then 1 else 0, [c4_url], [c4_url]⟩ := by
      simp [crawl_body, c4_page, addNewUrls]
    rw [hb]
    apply ih
    · dsimp
      split <;> omega
    · rfl
    · rfl

/-- C4 (code bug): with an unbounded page limit, pages that repeat the same
non-empty listing yield zero new URLs from page 2 on, yet the crawl never
terminates: the loop runs on for every amount of fuel, because a non-empty
page resets the consecutive-empty-page counter before possibly setting it
to one, so the counter never reaches the stop threshold of five. -/
theorem zillow_c4_unbounded_duplicates_never_terminate (fuel : Nat) :
    run_crawl none c4_page 100 fuel crawl_init = none := by
  cases fuel with
  | zero => rfl
  | succ n =>
    have hg : crawl_guard none crawl_init = true := by decide
    rw [run_crawl, if_pos hg]
    have hb : crawl_body c4_page 100 crawl_init =
        Sum.inl ⟨2, 0, [c4_url], [c4_url]⟩ := by
      simp [crawl_body, crawl_init, c4_page, addNewUrls]
    rw [hb]
    exact c4_inv n _ (by simp) rfl rfl

/-- Witness for C4: twenty pages in, the crawl is still running. -/
theorem zillow_c4_witness :
    run_crawl none c4_page 100 20 crawl_init = none :=
  zillow_c4_unbounded_duplicates_never_terminate 20

/-- Helper for C9: deleting a listing's rows leaves nothing of that listing
for a later filter to find. -/
theorem filter_ne_filter_eq (z : String) (l : List PhotoRow) :
    (l.filter (fun r => r.zpid ≠ z)).filter (fun r => r.zpid = z) = [] := by
  induction l with
  | nil => rfl
  | cons a t ih =>
    by_cases h : a.zpid = z <;> simp [List.filter, h, ih]

/-- Helper for C9: every freshly inserted photo row is the listing's own. -/
theorem insertPhotos_filter (z : String) (l : List JValue) :
    ∀ i : Nat, (insertPhotos z i l).filter (fun r => r.zpid = z) =
      insertPhotos z i l := by
  induction l with
  | nil => intro i; rfl
  | cons p ps ih => intro i; simp [insertPhotos, List.filter, ih]

/-- Helper for C9: the insertion loop produces one row per photo. -/
theorem insertPhotos_length (z : String) (l : List JValue) :
    ∀ i : Nat, (insertPhotos z i l).length = l.length := by
  induction l with
  | nil => intro i; rfl
  | cons p ps ih => intro i; simp [insertPhotos, ih]

/-- C9: after a successful upsert of a record with a non-empty photo list,
the photo rows stored for that listing are exactly the first
`min(length, 10)` photos of the record in list order (all previously stored
rows for the listing having been deleted first), hence at most ten rows. -/
theorem zillow_c9_photos_replaced_capped (db : DBState)
    (pd : List (String × JValue)) (hz : zpidString pd ≠ "")
    (hp : photosOf pd ≠ []) :
    ((store_property_to_database db pd).2.photos.filter
        (fun r => r.zpid = zpidString pd)) =
      insertPhotos (zpidString pd) 0 ((photosOf pd).take 10) ∧
    ((store_property_to_database db pd).2.photos.filter
        (fun r => r.zpid = zpidString pd)).length ≤ 10 := by
  have hp2 : (photosOf pd).isEmpty = false := by
    simpa [List.isEmpty_iff] using hp
  have hph : (store_property_to_database db pd).2.photos =
      db.photos.filter (fun r => r.zpid ≠ zpidString pd) ++
        insertPhotos (zpidString pd) 0 ((photosOf pd).take 10) := by
    rw [store_property_to_database, if_neg hz]
    simp [hp2]
  rw [hph, List.filter_append, filter_ne_filter_eq, List.nil_append,
    insertPhotos_filter]
  refine ⟨rfl, ?_⟩
  rw [insertPhotos_length, List.length_take]
  omega

/-- Witness for C9: listing `7` had an old photo row; after the upsert its
rows are exactly the single fresh photo. -/
theorem zillow_c9_witness :
    ((store_property_to_database c9_db c9_record).2.photos.filter
        (fun r => r.zpid = zpidString c9_record)) =
      insertPhotos (zpidString c9_record) 0 ((photosOf c9_record).take 10) ∧
    ((store_property_to_database c9_db c9_record).2.photos.filter
        (fun r => r.zpid = zpidString c9_record)).length ≤ 10 :=
  zillow_c9_photos_replaced_capped c9_db c9_record (by decide)
    (by simp [show photosOf c9_record = [JValue.str "p1"] from rfl])

/-- Helper for C6: the section loop only returns values passing the
emptiness filter. -/
theorem firstHit_not_emptyish (fields : List (String × JValue)) :
    ∀ (vars : List String) (v : JValue),
      firstHitInSection fields vars = some v → isEmptyish v = false := by
  intro vars
  induction vars with
  | nil => intro v h; exact absurd h (by simp [firstHitInSection])
  | cons w rest ih =>
    intro v h
    rw [firstHitInSection] at h
    split at h
    · split at h
      · exact ih v h
      · next hev => cases h; simpa using hev
    · exact ih v h

/-- Helper for C6: the known-path loop only returns values passing the
emptiness filter. -/
theorem knownPaths_not_emptyish (cache : List (String × JValue))
    (vars : List String) :
    ∀ (ps : List String) (v : JValue),
      searchKnownPaths cache vars ps = some v → isEmptyish v = false := by
  intro ps
  induction ps with
  | nil => intro v h; exact absurd h (by simp [searchKnownPaths])
  | cons p rest ih =>
    intro v h
    rw [searchKnownPaths] at h
    split at h
    · split at h
      · next e2 => cases h; exact firstHit_not_emptyish _ _ _ e2
      · exact ih v h
    · exact ih v h

/-- Helper for C6: the dict-entry loop of the recursive search only returns
values passing the emptiness filter, granted its child search does. -/
theorem srjObj_sound (km : String → Bool) (child : JValue → Option JValue)
    (hchild : ∀ x r, child x = some r → isEmptyish r = false) :
    ∀ (fields : List (String × JValue)) (v : JValue),
      srjObj km child fields = some v → isEmptyish v = false := by
  intro fields
  induction fields with
  | nil => intro v h; exact absurd h (by simp [srjObj])
  | cons e rest ih =>
    intro v h
    obtain ⟨k, val⟩ := e
    rw [srjObj] at h
    split at h
    · next hc =>
      cases h
      simp at hc
      exact hc.2
    · split at h
      · next e2 =>
        cases h
        split at e2
        · exact hchild val v e2
        · cases e2
      · exact ih v h

/-- Helper for C6: the list-item loop of the recursive search only returns
values passing the emptiness filter, granted its child search does. -/
theorem srjArr_sound (child : JValue → Option JValue)
    (hchild : ∀ x r, child x = some r → isEmptyish r = false) :
    ∀ (xs : List JValue) (v : JValue),
      srjArr child xs = some v → isEmptyish v = false := by
  intro xs
  induction xs with
  | nil => intro v h; exact absurd h (by simp [srjArr])
  | cons x rest ih =>
    intro v h
    rw [srjArr] at h
    split at h
    · next e => cases h; exact hchild x v e
    · exact ih v h

/-- Helper for C6: the bounded recursive search only returns values passing
the emptiness filter. -/
theorem srj_not_emptyish (vars : List String) :
    ∀ (n : Nat) (d : JValue) (v : JValue),
      search_recursive_json vars n d = some v → isEmptyish v = false := by
  intro n
  induction n with
  | zero => intro d v h; simp [search_recursive_json] at h
  | succ m ih =>
    intro d v h
    cases d with
    | obj fields => exact srjObj_sound _ _ (fun x r hx => ih x r hx) fields v h
    | arr xs => exact srjArr_sound _ (fun x r hx => ih x r hx) xs v h
    | null => simp [search_recursive_json] at h
    | bool b => simp [search_recursive_json] at h
    | num n2 => simp [search_recursive_json] at h
    | str s => simp [search_recursive_json] at h

/-- Helper for C6: `search_json_paths_flexible` only returns values passing
the emptiness filter (which does not exclude the strings
`"null"`/`"undefined"`). -/
theorem sjpf_not_emptyish (cache : List (String × JValue)) (vars : List String)
    (v : JValue) (h : search_json_paths_flexible cache vars = some v) :
    isEmptyish v = false := by
  rw [search_json_paths_flexible] at h
  split at h
  · next e => cases h; exact knownPaths_not_emptyish cache vars _ _ e
  · exact srj_not_emptyish vars 5 _ v h

/-- Counterexample to C6 as stated: the JSON strategy returns the string
value `"null"` as a found hit — it is not treated as absent, and the
resolver delivers it as the field's value. -/
theorem zillow_c6_counterexample :
    search_json_paths_flexible c6_cache ["year_built"] =
        some (JValue.str "null") ∧
    (extract_field_flexible findall_empty "year_built" c6_cache
        none none none).1 = some (FoundValue.json (JValue.str "null")) :=
  ⟨rfl, rfl⟩

/-- C6 (amended): the regex strategies skip candidate matches that are
blank or whose raw text is exactly `null`/`undefined` (case-insensitively)
and keep searching; the JSON strategies treat only Python `None`, the empty
string and the empty list as absent — a string value `"null"` or
`"undefined"` (or an empty object) is returned as a hit by them. -/
theorem zillow_c6_amended_absent_handling :
    (∀ (bad rest : List String),
        (∀ g ∈ bad, pyStrip g = "" ∨ lowerStr g = "null" ∨ lowerStr g = "undefined") →
        first_valid_regex_match (bad ++ rest) = first_valid_regex_match rest) ∧
    (∀ (cache : List (String × JValue)) (vars : List String) (v : JValue),
        search_json_paths_flexible cache vars = some v →
        v ≠ JValue.null ∧ v ≠ JValue.str "" ∧ v ≠ JValue.arr []) := by
  constructor
  · intro bad
    induction bad with
    | nil => intro rest _; rfl
    | cons g t ih =>
      intro rest h
      have hg := h g (by simp)
      rw [List.cons_append, first_valid_regex_match, if_neg ?hc]
      case hc =>
        intro hc
        simp only [Bool.and_eq_true, decide_eq_true_eq, Bool.not_eq_true',
          Bool.or_eq_false_iff, decide_eq_false_iff_not] at hc
        rcases hg with h1 | h2 | h3
        · exact hc.1.2 h1
        · exact hc.2.1.1 h2
        · exact hc.2.1.2 h3
      exact ih rest (fun x hx => h x (by simp [hx]))
  · intro cache vars v h
    have he := sjpf_not_emptyish cache vars v h
    refine ⟨?_, ?_, ?_⟩
    · rintro rfl; simp [isEmptyish] at he
    · rintro rfl; simp [isEmptyish] at he
    · rintro rfl; simp [isEmptyish] at he

/-- Witness for the amended C6: blank, `null` and `UNDEFINED` candidates are
skipped and the search continues to the later candidate. -/
theorem zillow_c6_witness :
    first_valid_regex_match ["null", " ", "UNDEFINED", "ok"] = some "ok" := by
  have h := zillow_c6_amended_absent_handling.1 ["null", " ", "UNDEFINED"]
    ["ok"] (by decide)
  rw [show (["null", " ", "UNDEFINED"] ++ ["ok"] : List String) =
    ["null", " ", "UNDEFINED", "ok"] from rfl] at h
  rw [h]
  rfl

/-- C3: the resolver's precedence is total.  If strategy `k` is the first
strategy that finds a value, then `extract_field_flexible` returns exactly
that value and no lower-precedence strategy (rank above `k`) is consulted. -/
theorem zillow_c3_resolver_precedence_total
    (findall : String → String → List String) (field_name : String)
    (cache : List (String × JValue)) (ndRaw ndProc html : Option String)
    (k : Nat) (v : FoundValue)
    (hk : strategyHit findall field_name cache ndRaw ndProc html k = some v)
    (hprev : ∀ j, j < k → strategyHit findall field_name cache ndRaw ndProc html j = none) :
    (extract_field_flexible findall field_name cache ndRaw ndProc html).1 = some v ∧
    ∀ j ∈ (extract_field_flexible findall field_name cache ndRaw ndProc html).2,
      j ≤ k := by
  rcases k with _ | _ | _ | _ | _ | n
  · simp [strategyHit] at hk
  · simp only [strategyHit] at hk
    constructor
    · simp [extract_field_flexible, strategyChain, chainValue, hk]
    · simp [extract_field_flexible, strategyChain, consultedRanks, hk]
  · have h1 := hprev 1 (by omega)
    simp only [strategyHit] at hk h1
    by_cases hp : truthyOpt ndProc = true
    · rw [if_pos hp] at hk
      constructor
      · simp [extract_field_flexible, strategyChain, chainValue, hk, h1, hp]
      · simp only [extract_field_flexible, strategyChain, consultedRanks]
        simp [hk, h1, hp]
    · rw [if_neg hp] at hk
      cases hk
  · have h1 := hprev 1 (by omega)
    have h2 := hprev 2 (by omega)
    simp only [strategyHit] at hk h1 h2
    by_cases hr : truthyOpt ndRaw = true
    · rw [if_pos hr] at hk
      by_cases hp : truthyOpt ndProc = true
      · rw [if_pos hp] at h2
        constructor
        · simp [extract_field_flexible, strategyChain, chainValue, hk, h1, h2, hp, hr]
        · simp only [extract_field_flexible, strategyChain, consultedRanks]
          simp [hk, h1, h2, hp, hr]
      · constructor
        · simp [extract_field_flexible, strategyChain, chainValue, hk, h1, hp, hr]
        · simp only [extract_field_flexible, strategyChain, consultedRanks]
          simp [hk, h1, hp, hr]
    · rw [if_neg hr] at hk
      cases hk
  · have h1 := hprev 1 (by omega)
    have h2 := hprev 2 (by omega)
    have h3 := hprev 3 (by omega)
    simp only [strategyHit] at hk h1 h2 h3
    by_cases hh : truthyOpt html = true
    · rw [if_pos hh] at hk
      by_cases hp : truthyOpt ndProc = true
      · rw [if_pos hp] at h2
        by_cases hr : truthyOpt ndRaw = true
        · rw [if_pos hr] at h3
          constructor
          · simp [extract_field_flexible, strategyChain, chainValue, hk, h1, h2, h3, hp, hr, hh]
          · simp only [extract_field_flexible, strategyChain, consultedRanks]
            simp [hk, h1, h2, h3, hp, hr, hh]
        · constructor
          · simp [extract_field_flexible, strategyChain, chainValue, hk, h1, h2, hp, hr, hh]
          · simp only [extract_field_flexible, strategyChain, consultedRanks]
            simp [hk, h1, h2, hp, hr, hh]
      · by_cases hr : truthyOpt ndRaw = true
        · rw [if_pos hr] at h3
          constructor
          · simp [extract_field_flexible, strategyChain, chainValue, hk, h1, h3, hp, hr, hh]
          · simp only [extract_field_flexible, strategyChain, consultedRanks]
            simp [hk, h1, h3, hp, hr, hh]
        · constructor
          · simp [extract_field_flexible, strategyChain, chainValue, hk, h1, hp, hr, hh]
          · simp only [extract_field_flexible, strategyChain, consultedRanks]
            simp [hk, h1, hp, hr, hh]
    · rw [if_neg hh] at hk
      cases hk
  · simp [strategyHit] at hk

/-- Witness for C3: resolving `year_built` against
`{"resoFacts": {"yearBuilt": 1998}}` hits strategy 1, the resolver returns
`1998`, and only strategy 1 is consulted — no regex fallback runs. -/
theorem zillow_c3_year_built_witness :
    strategyHit findall_empty "year_built" c3_cache none none none 1 =
        some (FoundValue.json (JValue.num 1998)) ∧
    (extract_field_flexible findall_empty "year_built" c3_cache none none none).1 =
        some (FoundValue.json (JValue.num 1998)) ∧
    (extract_field_flexible findall_empty "year_built" c3_cache none none none).2 =
        [1] := by
  have h1 : strategyHit findall_empty "year_built" c3_cache none none none 1 =
      some (FoundValue.json (JValue.num 1998)) := rfl
  refine ⟨h1, ?_, rfl⟩
  exact (zillow_c3_resolver_precedence_total findall_empty "year_built" c3_cache
    none none none 1 _ h1 (by intro j hj; interval_cases j; rfl)).1

/-- C8 (code bug): on the line text
`Private dock with 60' dockage and no fixed bridges`, the miner's
`no_fixed_bridges` flag is set, but every candidate source for
`dock_linear_ft` is empty — `UNIT_PHRASE_RE`'s suffix does not accept
`60' dockage` (after the foot-quote only `slip/dock/docks/wf` or a word
character may follow) — so `extract_from_line` yields no dock length
instead of the specified `60`. -/
theorem zillow_c8_dock_line_eval :
    extract_from_line_dock_candidates c8_line = [] ∧
    extract_from_line_dock_ft c8_line = none ∧
    no_fixed_bridges c8_line = true :=
  ⟨rfl, rfl, rfl⟩

end ZillowWF
